import Mathlib

/-!
Verification development for the equity cash flow pricing kernel of
QuantLib (repository under test), as exercised by
`src/test-suite/equitycashflow.cpp`.

The implementation files (`ql/cashflows/equitycashflow.cpp`,
`ql/indexes/equityindex.cpp`) are not part of the sources provided; the
components below are modelled from the specification (`spec.md`), with the
test suite as the concrete oracle.  Only the market objects the test suite
actually constructs are modelled: flat continuously–compounded yield
curves (`flatRate`), flat Black volatility surfaces (`flatVol`) and scalar
quotes (`SimpleQuote`), all on the Actual/365-Fixed day count basis.

Dates are modelled by their serial numbers (as in QuantLib's `Date`);
only differences of serial numbers enter any formula.
-/

namespace EquityCF

noncomputable section

/-- Modelled from the spec: the error taxonomy of §7 plus the two
implicit errors of §4.1 (missing fixing, missing/empty handle on
dereference). -/
inductive QLError where
  | dateOrdering
  | missingMarketData
  | inconsistentReferenceDate
  | missingFixing
  | missingHandle
  deriving Repr, DecidableEq

/-- Modelled from the spec: the exact user-visible error message strings
of §6 (the last two errors have no verbatim string in the spec). -/
def QLError.message : QLError → String
  | .dateOrdering => "Fixing date cannot fall before base date."
  | .missingMarketData =>
      "Quanto currency, equity and FX volatility term structure handles cannot be empty."
  | .inconsistentReferenceDate =>
      "Quanto currency term structure, equity and FX volatility need to have the same reference date."
  | .missingFixing => "Missing fixing for the requested date."
  | .missingHandle => "Required market data handle is empty."

/-- The Actual/365-Fixed year fraction between two dates given by serial
numbers (the only day counter used by the test suite). -/
def yearFraction (ref d : Nat) : ℝ := ((d : ℝ) - (ref : ℝ)) / 365

/-- Modelled from the spec: a flat yield curve as produced by the test
utility `flatRate(referenceDate, rate, dayCount)` — a reference date and a
flat continuously compounded zero rate. -/
structure YieldCurve where
  refDate : Nat
  rate : ℝ

/-- Time from the curve's reference date to a date, on the curve's
day-count basis (Actual/365-Fixed throughout the test suite). -/
def YieldCurve.timeFromReference (c : YieldCurve) (d : Nat) : ℝ :=
  yearFraction c.refDate d

/-- Continuously compounded zero rate at a given time: constant for a
flat curve. -/
def YieldCurve.zeroRate (c : YieldCurve) (_t : ℝ) : ℝ := c.rate

/-- Discount factor of the flat curve at a date. -/
def YieldCurve.discount (c : YieldCurve) (d : Nat) : ℝ :=
  Real.exp (-(c.rate * c.timeFromReference d))

/-- Modelled from the spec: a flat Black volatility surface as produced
by the test utility `flatVol(vol, dayCount)`. -/
structure VolSurface where
  refDate : Nat
  vol : ℝ

/-- Black volatility queried at a (date, strike) pair: constant for a
flat surface. -/
def VolSurface.blackVol (v : VolSurface) (_d : Nat) (_strike : ℝ) : ℝ := v.vol

/-- Modelled from the spec §3: `EquityIndex` — a fixing history
(date ↦ level, later writes overwrite), a forecast (risk-free) curve
handle, a dividend curve handle and a spot quote handle.  An empty handle
is `none`. -/
structure EquityIndex where
  fixings : List (Nat × ℝ)
  forecastCurve : Option YieldCurve
  dividendCurve : Option YieldCurve
  spot : Option ℝ

/-- Modelled from the spec: `addFixing` records a level for a date; the
most recent write wins (`List.lookup` returns the first entry). -/
def EquityIndex.addFixing (idx : EquityIndex) (d : Nat) (v : ℝ) : EquityIndex :=
  { idx with fixings := (d, v) :: idx.fixings }

/-- Modelled from the spec §4.1: `clone` returns a new index reusing the
same fixing history but with substituted curve/spot handles. -/
def EquityIndex.clone (idx : EquityIndex) (forecast dividend : Option YieldCurve)
    (s : Option ℝ) : EquityIndex :=
  ⟨idx.fixings, forecast, dividend, s⟩

/-- Dividend discount factor used in the forecast: `1` when the dividend
handle is empty (the "price-return" variant). -/
def EquityIndex.dividendDiscount (idx : EquityIndex) (d : Nat) : ℝ :=
  match idx.dividendCurve with
  | some c => c.discount d
  | none => 1

/-- Modelled from the spec §4.1: `fixing(date)` — on or before the
evaluation date the stored fixing is returned (error if absent); after
the evaluation date the level is forecast as
`spot * dividendDiscount(date) / forecastDiscount(date)`. -/
def EquityIndex.fixing (evalDate : Nat) (idx : EquityIndex) (d : Nat) :
    Except QLError ℝ :=
  if d ≤ evalDate then
    match idx.fixings.lookup d with
    | some v => .ok v
    | none => .error .missingFixing
  else
    match idx.forecastCurve, idx.spot with
    | some c, some s => .ok (s * idx.dividendDiscount d / c.discount d)
    | _, _ => .error .missingHandle

/-- Modelled from the spec §3: `EquityCashFlow` — notional, base (start)
date, fixing date and payment date; the index and pricer are passed at
valuation time (they are shared references in the source). -/
structure EquityCashFlow where
  notional : ℝ
  baseDate : Nat
  fixingDate : Nat
  paymentDate : Nat

/-- Modelled from the spec §7: construction of a cash flow performs no
validation (the date ordering is checked lazily at valuation time), so
the constructor always succeeds. -/
def EquityCashFlow.create (notional : ℝ) (base fixing payment : Nat) :
    Except QLError EquityCashFlow :=
  .ok ⟨notional, base, fixing, payment⟩

/-- Modelled from the spec §4.3: the quanto pricer's market data — quanto
currency curve, equity volatility surface, FX volatility surface and
correlation quote handles, each possibly empty. -/
structure EquityQuantoCashFlowPricer where
  quantoCcy : Option YieldCurve
  eqVol : Option VolSurface
  fxVol : Option VolSurface
  correlation : Option ℝ

/-- Modelled from the spec §4.3: all pricer handles "may be initially
empty but must be non-empty at valuation time" — construction never
validates, so it always succeeds. -/
def EquityQuantoCashFlowPricer.create (q : Option YieldCurve) (e f : Option VolSurface)
    (c : Option ℝ) : Except QLError EquityQuantoCashFlowPricer :=
  .ok ⟨q, e, f, c⟩

/-- Modelled from the spec §4.2: the simple (non-quanto) amount,
`notional * (index.fixing(fixingDate) / index.fixing(baseDate) - 1)`. -/
def simpleReturnAmount (evalDate : Nat) (cf : EquityCashFlow) (idx : EquityIndex) :
    Except QLError ℝ :=
  match idx.fixing evalDate cf.fixingDate, idx.fixing evalDate cf.baseDate with
  | .ok b, .ok a => .ok (cf.notional * (b / a - 1))
  | .error e, _ => .error e
  | .ok _, .error e => .error e

/-- Modelled from the spec §4.3: `EquityQuantoCashFlowPricer.amount`.
The validation steps (empty handles, then reference-date consistency) and
the closed form `notional * (S0 * exp((r_f - q - ρ·σ_eq·σ_fx)·τ) / fixing(baseDate) - 1)`
follow §4.3; the curve supplying `τ` and `r_f` is fixed by the test
oracle (`src/test-suite/equitycashflow.cpp:152-153`), which computes the
time and the zero rate from the equity index's local-currency forecast
curve.  The literal reading of §4.3 step 3, which instead takes them from
the quanto currency curve, is embedded separately as
`quantoAmountSpecStep3` and refuted against this oracle. -/
def quantoAmount (evalDate : Nat) (p : EquityQuantoCashFlowPricer)
    (cf : EquityCashFlow) (idx : EquityIndex) : Except QLError ℝ :=
  match p.quantoCcy, p.eqVol, p.fxVol with
  | some qc, some ev, some fv =>
    if qc.refDate = ev.refDate ∧ ev.refDate = fv.refDate then
      match idx.forecastCurve, idx.spot, p.correlation with
      | some lc, some s0, some rho =>
        match idx.fixing evalDate cf.fixingDate with
        | .ok strike =>
          let t := lc.timeFromReference cf.fixingDate
          let rf := lc.zeroRate t
          let q : ℝ := match idx.dividendCurve with
            | some dc => dc.zeroRate t
            | none => 0
          let sigmaEq := ev.blackVol cf.fixingDate strike
          let sigmaFx := fv.blackVol cf.fixingDate 1
          let forward := s0 * Real.exp ((rf - q - rho * sigmaEq * sigmaFx) * t)
          match idx.fixing evalDate cf.baseDate with
          | .ok a => .ok (cf.notional * (forward / a - 1))
          | .error e => .error e
        | .error e => .error e
      | _, _, _ => .error .missingHandle
    else .error .inconsistentReferenceDate
  | _, _, _ => .error .missingMarketData

/-- Modelled from the spec: the literal reading of §4.3 step 3, kept for
comparison with `quantoAmount` — identical except that `τ` is measured on
the quanto currency curve's day-count basis and `r_f` is the quanto
currency curve's zero rate. -/
def quantoAmountSpecStep3 (evalDate : Nat) (p : EquityQuantoCashFlowPricer)
    (cf : EquityCashFlow) (idx : EquityIndex) : Except QLError ℝ :=
  match p.quantoCcy, p.eqVol, p.fxVol with
  | some qc, some ev, some fv =>
    if qc.refDate = ev.refDate ∧ ev.refDate = fv.refDate then
      match idx.forecastCurve, idx.spot, p.correlation with
      | some _, some s0, some rho =>
        match idx.fixing evalDate cf.fixingDate with
        | .ok strike =>
          let t := qc.timeFromReference cf.fixingDate
          let rf := qc.zeroRate t
          let q : ℝ := match idx.dividendCurve with
            | some dc => dc.zeroRate t
            | none => 0
          let sigmaEq := ev.blackVol cf.fixingDate strike
          let sigmaFx := fv.blackVol cf.fixingDate 1
          let forward := s0 * Real.exp ((rf - q - rho * sigmaEq * sigmaFx) * t)
          match idx.fixing evalDate cf.baseDate with
          | .ok a => .ok (cf.notional * (forward / a - 1))
          | .error e => .error e
        | .error e => .error e
      | _, _, _ => .error .missingHandle
    else .error .inconsistentReferenceDate
  | _, _, _ => .error .missingMarketData

/-- Modelled from the spec §2/§9: the closed tagged variant of pricers —
the simple return pricer and the quanto pricer. -/
inductive Pricer where
  | simple
  | quanto (p : EquityQuantoCashFlowPricer)

/-- Modelled from the spec §4.2: `EquityCashFlow.amount()` — validates
`fixingDate >= baseDate` before invoking the pricer, then dispatches to
the attached pricer; when no pricer was ever attached the simple return
pricer is used (behaviour fixed by `testSimpleEquityCashFlow`, which
calls `amount()` without `setPricer`). -/
def EquityCashFlow.amount (evalDate : Nat) (cf : EquityCashFlow)
    (idx : EquityIndex) (pricer : Option Pricer) : Except QLError ℝ :=
  if cf.baseDate ≤ cf.fixingDate then
    match pricer with
    | none => simpleReturnAmount evalDate cf idx
    | some .simple => simpleReturnAmount evalDate cf idx
    | some (.quanto p) => quantoAmount evalDate p cf idx
  else .error .dateOrdering

/-- The closed-form quanto amount of spec §4.3 steps 4–5, as a function
of its scalar inputs. -/
def quantoClosedForm (notional s0 rf q rho sigmaEq sigmaFx t a0 : ℝ) : ℝ :=
  notional * (s0 * Real.exp ((rf - q - rho * sigmaEq * sigmaFx) * t) / a0 - 1)

/-! Market-data handle state and the notification/invalidation machine.

Modelled from the spec §4.4 and §2: the seven relinkable handles of the
test suite's `CommonVars` form the shared market state; every relink
fires a change notification that transitively marks the cash flow's
cached amount stale; `amount()` recomputes lazily on the next call. -/

/-- Modelled from the spec §2: the seven relinkable market-data handles
of the test fixture (`CommonVars`), each empty (`none`) or linked. -/
structure Market where
  localCcy : Option YieldCurve
  dividend : Option YieldCurve
  quantoCcy : Option YieldCurve
  eqVol : Option VolSurface
  fxVol : Option VolSurface
  spot : Option ℝ
  correlation : Option ℝ

/-- The equity index view of the market: the index shares the local
currency (forecast), dividend and spot handles. -/
def Market.equityIndex (m : Market) (fixings : List (Nat × ℝ)) : EquityIndex :=
  ⟨fixings, m.localCcy, m.dividend, m.spot⟩

/-- The quanto pricer view of the market: the pricer shares the quanto
currency, equity-vol, FX-vol and correlation handles. -/
def Market.quantoPricer (m : Market) : EquityQuantoCashFlowPricer :=
  ⟨m.quantoCcy, m.eqVol, m.fxVol, m.correlation⟩

/-- Modelled from the spec §2: a relink event on one of the seven
handles (`RelinkableHandle.linkTo` in the test suite). -/
inductive Event where
  | linkLocalCcy (c : YieldCurve)
  | linkDividend (c : YieldCurve)
  | linkQuantoCcy (c : YieldCurve)
  | linkEqVol (v : VolSurface)
  | linkFxVol (v : VolSurface)
  | linkSpot (q : ℝ)
  | linkCorrelation (q : ℝ)

/-- Which of the seven handles an event relinks. -/
def Event.kind : Event → Nat
  | .linkLocalCcy _ => 0
  | .linkDividend _ => 1
  | .linkQuantoCcy _ => 2
  | .linkEqVol _ => 3
  | .linkFxVol _ => 4
  | .linkSpot _ => 5
  | .linkCorrelation _ => 6

/-- Relinking a handle repoints it at the new market object. -/
def Event.apply : Event → Market → Market
  | .linkLocalCcy c, m => { m with localCcy := some c }
  | .linkDividend c, m => { m with dividend := some c }
  | .linkQuantoCcy c, m => { m with quantoCcy := some c }
  | .linkEqVol v, m => { m with eqVol := some v }
  | .linkFxVol v, m => { m with fxVol := some v }
  | .linkSpot q, m => { m with spot := some q }
  | .linkCorrelation q, m => { m with correlation := some q }

/-- Replay a sequence of relink events over a market state. -/
def applyEvents (es : List Event) (m : Market) : Market :=
  es.foldl (fun m e => e.apply m) m

/-- The market with every handle empty (the state of `CommonVars`'s
handles before any `linkTo` call). -/
def emptyMarket : Market := ⟨none, none, none, none, none, none, none⟩

/-- Modelled from the spec §4.4: the per-cash-flow valuation state — the
shared market plus the two-state cache (`some v` = Fresh with cached
amount `v`, `none` = Stale). -/
structure PricingState where
  market : Market
  cache : Option ℝ

/-- Which pricer the cash flow currently holds: the quanto pricer over
the market's handles, or the default simple return pricer. -/
def pricerOf (useQuanto : Bool) (m : Market) : Pricer :=
  if useQuanto then .quanto m.quantoPricer else .simple

/-- Modelled from the spec §4.4: a call to `amount()` — returns the
cached value when the cache is Fresh; otherwise recomputes through the
pricer from the current market, caches a successful result
(Stale→Fresh) and returns it. -/
def callAmount (evalDate : Nat) (fixings : List (Nat × ℝ)) (cf : EquityCashFlow)
    (useQuanto : Bool) (s : PricingState) : Except QLError ℝ × PricingState :=
  match s.cache with
  | some v => (.ok v, s)
  | none =>
    let r := cf.amount evalDate (s.market.equityIndex fixings)
      (some (pricerOf useQuanto s.market))
    (r, ⟨s.market, r.toOption⟩)

/-- Modelled from the spec §4.4: a relink notification propagates to the
cash flow and flips its cache to Stale; no eager recomputation. -/
def notify (e : Event) (s : PricingState) : PricingState :=
  ⟨e.apply s.market, none⟩

/-! Concrete market data of the test fixture (`CommonVars` in
`src/test-suite/equitycashflow.cpp`).  Dates are QuantLib serial
numbers: 2023-01-05 ↦ 44931, 2023-01-26 ↦ 44952, 2023-01-27 ↦ 44953,
2023-04-05 ↦ 45021. -/

/-- Serial number of 5 January 2023. -/
def dJan05 : Nat := 44931

/-- Serial number of 26 January 2023. -/
def dJan26 : Nat := 44952

/-- Serial number of 27 January 2023 (the evaluation date `today`). -/
def dJan27 : Nat := 44953

/-- Serial number of 5 April 2023. -/
def dApr05 : Nat := 45021

/-- The evaluation date of the test fixture. -/
def testEvalDate : Nat := dJan27

/-- The fixing history of `eqIndex`: 9010.0 on 2023-01-05 and 8690.0 on
the evaluation date, in the order `addFixing` produces. -/
def testFixings : List (Nat × ℝ) :=
  (EquityIndex.addFixing (EquityIndex.addFixing ⟨[], none, none, none⟩ dJan05 9010)
    dJan27 8690).fixings

/-- The seven `linkTo` calls of `CommonVars`, in source order. -/
def testLinkEvents : List Event :=
  [.linkLocalCcy ⟨dJan27, 0.0375⟩, .linkDividend ⟨dJan27, 0.005⟩,
   .linkQuantoCcy ⟨dJan27, 0.001⟩, .linkEqVol ⟨dJan27, 0.4⟩,
   .linkFxVol ⟨dJan27, 0.2⟩, .linkSpot 8700, .linkCorrelation 0.4]

/-- The fully linked market of the test fixture. -/
def testMarket : Market := applyEvents testLinkEvents emptyMarket

/-- The equity index of the test fixture, viewing the linked handles. -/
def testIndex : EquityIndex := testMarket.equityIndex testFixings

/-- The quanto pricer of the test fixture, viewing the linked handles. -/
def testPricer : EquityQuantoCashFlowPricer := testMarket.quantoPricer

/-- The quanto cash flow of `testQuantoCorrection`: notional 1e7, start
2023-01-05, fixing and payment 2023-04-05. -/
def testCashFlow : EquityCashFlow := ⟨10000000, dJan05, dApr05, dApr05⟩

/-! Replaying relink events: each market field holds the last curve or
quote linked to its handle, so the final market — and hence the amount —
is independent of the interleaving of links to distinct handles. -/

/-- The payload of a local-currency-curve link event. -/
def Event.localPayload : Event → Option YieldCurve
  | .linkLocalCcy c => some c
  | _ => none

/-- The payload of a dividend-curve link event. -/
def Event.dividendPayload : Event → Option YieldCurve
  | .linkDividend c => some c
  | _ => none

/-- The payload of a quanto-currency-curve link event. -/
def Event.quantoPayload : Event → Option YieldCurve
  | .linkQuantoCcy c => some c
  | _ => none

/-- The payload of an equity-vol link event. -/
def Event.eqVolPayload : Event → Option VolSurface
  | .linkEqVol v => some v
  | _ => none

/-- The payload of an FX-vol link event. -/
def Event.fxVolPayload : Event → Option VolSurface
  | .linkFxVol v => some v
  | _ => none

/-- The payload of a spot-quote link event. -/
def Event.spotPayload : Event → Option ℝ
  | .linkSpot q => some q
  | _ => none

/-- The payload of a correlation-quote link event. -/
def Event.correlationPayload : Event → Option ℝ
  | .linkCorrelation q => some q
  | _ => none

/-- The handle content after a sequence of writes: the last write when
there is one, the initial content otherwise. -/
def lastWrite (xs : List α) (init : Option α) : Option α :=
  xs.foldl (fun _ c => some c) init

theorem applyEvents_localCcy (es : List Event) (m : Market) :
    (applyEvents es m).localCcy = lastWrite (es.filterMap Event.localPayload) m.localCcy := by
  induction es generalizing m with
  | nil => rfl
  | cons e es ih =>
    cases e <;>
      simp [applyEvents, List.foldl_cons, Event.apply, Event.localPayload,
        List.filterMap_cons, lastWrite, List.foldl] at ih ⊢ <;>
      exact ih _

theorem applyEvents_dividend (es : List Event) (m : Market) :
    (applyEvents es m).dividend = lastWrite (es.filterMap Event.dividendPayload) m.dividend := by
  induction es generalizing m with
  | nil => rfl
  | cons e es ih =>
    cases e <;>
      simp [applyEvents, List.foldl_cons, Event.apply, Event.dividendPayload,
        List.filterMap_cons, lastWrite, List.foldl] at ih ⊢ <;>
      exact ih _

theorem applyEvents_quantoCcy (es : List Event) (m : Market) :
    (applyEvents es m).quantoCcy = lastWrite (es.filterMap Event.quantoPayload) m.quantoCcy := by
  induction es generalizing m with
  | nil => rfl
  | cons e es ih =>
    cases e <;>
      simp [applyEvents, List.foldl_cons, Event.apply, Event.quantoPayload,
        List.filterMap_cons, lastWrite, List.foldl] at ih ⊢ <;>
      exact ih _

theorem applyEvents_eqVol (es : List Event) (m : Market) :
    (applyEvents es m).eqVol = lastWrite (es.filterMap Event.eqVolPayload) m.eqVol := by
  induction es generalizing m with
  | nil => rfl
  | cons e es ih =>
    cases e <;>
      simp [applyEvents, List.foldl_cons, Event.apply, Event.eqVolPayload,
        List.filterMap_cons, lastWrite, List.foldl] at ih ⊢ <;>
      exact ih _

theorem applyEvents_fxVol (es : List Event) (m : Market) :
    (applyEvents es m).fxVol = lastWrite (es.filterMap Event.fxVolPayload) m.fxVol := by
  induction es generalizing m with
  | nil => rfl
  | cons e es ih =>
    cases e <;>
      simp [applyEvents, List.foldl_cons, Event.apply, Event.fxVolPayload,
        List.filterMap_cons, lastWrite, List.foldl] at ih ⊢ <;>
      exact ih _

theorem applyEvents_spot (es : List Event) (m : Market) :
    (applyEvents es m).spot = lastWrite (es.filterMap Event.spotPayload) m.spot := by
  induction es generalizing m with
  | nil => rfl
  | cons e es ih =>
    cases e <;>
      simp [applyEvents, List.foldl_cons, Event.apply, Event.spotPayload,
        List.filterMap_cons, lastWrite, List.foldl] at ih ⊢ <;>
      exact ih _

theorem applyEvents_correlation (es : List Event) (m : Market) :
    (applyEvents es m).correlation =
      lastWrite (es.filterMap Event.correlationPayload) m.correlation := by
  induction es generalizing m with
  | nil => rfl
  | cons e es ih =>
    cases e <;>
      simp [applyEvents, List.foldl_cons, Event.apply, Event.correlationPayload,
        List.filterMap_cons, lastWrite, List.foldl] at ih ⊢ <;>
      exact ih _

/-- Any permutation of one link per handle produces the same fully
linked market, whatever the interleaving. -/
theorem applyEvents_perm_links (es : List Event) (lc dc qcc : YieldCurve)
    (ev fv : VolSurface) (s0 rho : ℝ)
    (hperm : es.Perm [.linkLocalCcy lc, .linkDividend dc, .linkQuantoCcy qcc,
      .linkEqVol ev, .linkFxVol fv, .linkSpot s0, .linkCorrelation rho]) (m : Market) :
    applyEvents es m = ⟨some lc, some dc, some qcc, some ev, some fv, some s0, some rho⟩ := by
  have hl := (List.perm_singleton).1 (hperm.filterMap Event.localPayload)
  have hd := (List.perm_singleton).1 (hperm.filterMap Event.dividendPayload)
  have hq := (List.perm_singleton).1 (hperm.filterMap Event.quantoPayload)
  have he := (List.perm_singleton).1 (hperm.filterMap Event.eqVolPayload)
  have hf := (List.perm_singleton).1 (hperm.filterMap Event.fxVolPayload)
  have hs := (List.perm_singleton).1 (hperm.filterMap Event.spotPayload)
  have hc := (List.perm_singleton).1 (hperm.filterMap Event.correlationPayload)
  have l1 := applyEvents_localCcy es m
  have l2 := applyEvents_dividend es m
  have l3 := applyEvents_quantoCcy es m
  have l4 := applyEvents_eqVol es m
  have l5 := applyEvents_fxVol es m
  have l6 := applyEvents_spot es m
  have l7 := applyEvents_correlation es m
  rw [hl] at l1; rw [hd] at l2; rw [hq] at l3; rw [he] at l4
  rw [hf] at l5; rw [hs] at l6; rw [hc] at l7
  cases happly : applyEvents es m
  rw [happly] at l1 l2 l3 l4 l5 l6 l7
  simp only [lastWrite, List.foldl] at l1 l2 l3 l4 l5 l6 l7
  simp_all

end

/-- C3: for every equity cash flow whose index fixes at value `a` on the
base date and at value `b` on the fixing date (with the fixing date not
before the base date), `amount()` equals `notional * (b / a - 1)` within
absolute tolerance 1e-6. -/
theorem simple_return_invariant (evalDate : Nat) (cf : EquityCashFlow)
    (idx : EquityIndex) (a b : ℝ) (hdate : cf.baseDate ≤ cf.fixingDate)
    (ha : idx.fixing evalDate cf.baseDate = .ok a)
    (hb : idx.fixing evalDate cf.fixingDate = .ok b) :
    ∃ v, cf.amount evalDate idx (some .simple) = .ok v ∧
      |v - cf.notional * (b / a - 1)| ≤ 1e-6 := by
  refine ⟨cf.notional * (b / a - 1), ?_, by norm_num⟩
  simp [EquityCashFlow.amount, simpleReturnAmount, hdate, ha, hb]

/-- Witness for C3 at the fixture's stored fixings: base 2023-01-05
(fixing 9010) and fixing date 2023-01-27 (fixing 8690). -/
theorem simple_return_invariant_witness :
    ∃ v, EquityCashFlow.amount testEvalDate ⟨10000000, dJan05, dJan27, dJan27⟩
        testIndex (some .simple) = .ok v ∧
      |v - 10000000 * ((8690 : ℝ) / 9010 - 1)| ≤ 1e-6 :=
  simple_return_invariant testEvalDate ⟨10000000, dJan05, dJan27, dJan27⟩
    testIndex 9010 8690 (by decide) rfl rfl

/-- C10: a cash flow on which `setPricer` was never called does not
fail: its `amount()` agrees with the simple-return pricer, hence equals
`notional * (fixing(fixingDate) / fixing(baseDate) - 1)` within 1e-6. -/
theorem amount_without_pricer (evalDate : Nat) (cf : EquityCashFlow)
    (idx : EquityIndex) (a b : ℝ) (hdate : cf.baseDate ≤ cf.fixingDate)
    (ha : idx.fixing evalDate cf.baseDate = .ok a)
    (hb : idx.fixing evalDate cf.fixingDate = .ok b) :
    cf.amount evalDate idx none = cf.amount evalDate idx (some .simple) ∧
    ∃ v, cf.amount evalDate idx none = .ok v ∧
      |v - cf.notional * (b / a - 1)| ≤ 1e-6 := by
  refine ⟨rfl, cf.notional * (b / a - 1), ?_, by norm_num⟩
  simp [EquityCashFlow.amount, simpleReturnAmount, hdate, ha, hb]

/-- Witness for C10: the scenario of `testSimpleEquityCashFlow` — the
cash flow from 2023-01-05 to 2023-04-05 with no pricer attached, the end
fixing being forecast from the linked curves. -/
theorem amount_without_pricer_witness :
    EquityCashFlow.amount testEvalDate testCashFlow testIndex none =
      EquityCashFlow.amount testEvalDate testCashFlow testIndex (some .simple) ∧
    ∃ v, EquityCashFlow.amount testEvalDate testCashFlow testIndex none = .ok v ∧
      |v - 10000000 *
        (8700 * Real.exp (-(0.005 * yearFraction dJan27 dApr05)) /
            Real.exp (-(0.0375 * yearFraction dJan27 dApr05)) / 9010 - 1)| ≤ 1e-6 :=
  amount_without_pricer testEvalDate testCashFlow testIndex 9010
    (8700 * Real.exp (-(0.005 * yearFraction dJan27 dApr05)) /
      Real.exp (-(0.0375 * yearFraction dJan27 dApr05)))
    (by decide) rfl rfl

/-- C5: a cash flow whose fixing date falls strictly before its base
date is constructed without error, but every `amount()` call — whatever
pricer is attached — fails with the date-ordering error, whose message
is exactly "Fixing date cannot fall before base date.", and returns no
value. -/
theorem date_ordering_error (n : ℝ) (base fixing payment evalDate : Nat)
    (idx : EquityIndex) (pricer : Option Pricer) (h : fixing < base) :
    EquityCashFlow.create n base fixing payment = .ok ⟨n, base, fixing, payment⟩ ∧
    EquityCashFlow.amount evalDate ⟨n, base, fixing, payment⟩ idx pricer =
      .error .dateOrdering ∧
    QLError.message .dateOrdering = "Fixing date cannot fall before base date." := by
  refine ⟨rfl, ?_, rfl⟩
  simp [EquityCashFlow.amount, Nat.not_le.mpr h]

/-- Witness for C5: base date 2023-04-05 with fixing date 2023-01-05, a
quanto pricer attached, as in `testErrorWhenBaseDateAfterFixingDate`. -/
theorem date_ordering_error_witness :
    EquityCashFlow.create 10000000 dApr05 dJan05 dJan05 =
      .ok ⟨10000000, dApr05, dJan05, dJan05⟩ ∧
    EquityCashFlow.amount testEvalDate ⟨10000000, dApr05, dJan05, dJan05⟩ testIndex
      (some (.quanto testPricer)) = .error .dateOrdering ∧
    QLError.message .dateOrdering = "Fixing date cannot fall before base date." :=
  date_ordering_error 10000000 dApr05 dJan05 dJan05 testEvalDate testIndex
    (some (.quanto testPricer)) (by decide)

/-- C4: after `amount()` has been called once, relinking any one of the
seven market-data handles and calling `amount()` again returns exactly
the value recomputed from the relinked market — the cached value is
never served across a notification. -/
theorem change_propagation (evalDate : Nat) (fixings : List (Nat × ℝ))
    (cf : EquityCashFlow) (useQuanto : Bool) (s₀ : PricingState) (e : Event) :
    (callAmount evalDate fixings cf useQuanto
        (notify e (callAmount evalDate fixings cf useQuanto s₀).2)).1 =
      cf.amount evalDate ((e.apply s₀.market).equityIndex fixings)
        (some (pricerOf useQuanto (e.apply s₀.market))) := by
  cases h : s₀.cache <;> simp [callAmount, notify, h]

/-- C9: the `EquityIndex.fixing` contract — a date on or before the
evaluation date is answered from the fixing history (stored value, or the
missing-fixing error when absent); a later date is forecast as
`spot * dividendDiscount / forecastDiscount`, the dividend discount
degenerating to 1 — pure spot growth — when the dividend handle is
empty. -/
theorem fixing_contract (evalDate d : Nat) (idx : EquityIndex)
    (lc : YieldCurve) (s0 : ℝ) (hfc : idx.forecastCurve = some lc)
    (hs : idx.spot = some s0) :
    (∀ v, d ≤ evalDate → idx.fixings.lookup d = some v →
      idx.fixing evalDate d = .ok v) ∧
    (d ≤ evalDate → idx.fixings.lookup d = none →
      idx.fixing evalDate d = .error .missingFixing) ∧
    (evalDate < d →
      idx.fixing evalDate d = .ok (s0 * idx.dividendDiscount d / lc.discount d)) ∧
    (evalDate < d → idx.dividendCurve = none →
      idx.fixing evalDate d =
        .ok (s0 / Real.exp (-(lc.rate * (((d : ℝ) - (lc.refDate : ℝ)) / 365))))) := by
  refine ⟨?_, ?_, ?_, ?_⟩
  · intro v hle hv
    simp [EquityIndex.fixing, hle, hv]
  · intro hle hv
    simp [EquityIndex.fixing, hle, hv]
  · intro hgt
    simp [EquityIndex.fixing, Nat.not_le.mpr hgt, hfc, hs]
  · intro hgt hdiv
    simp [EquityIndex.fixing, Nat.not_le.mpr hgt, hfc, hs,
      EquityIndex.dividendDiscount, hdiv, YieldCurve.discount,
      YieldCurve.timeFromReference, yearFraction]

/-- Witness for C9 at the test index: the stored fixing on 2023-01-05,
the missing fixing on 2023-01-26, and the forecast on 2023-04-05. -/
theorem fixing_contract_witness :
    (∀ v, dJan05 ≤ testEvalDate → testFixings.lookup dJan05 = some v →
      testIndex.fixing testEvalDate dJan05 = .ok v) ∧
    (dJan05 ≤ testEvalDate → testFixings.lookup dJan05 = none →
      testIndex.fixing testEvalDate dJan05 = .error .missingFixing) ∧
    (testEvalDate < dJan05 →
      testIndex.fixing testEvalDate dJan05 =
        .ok (8700 * testIndex.dividendDiscount dJan05 /
          YieldCurve.discount ⟨dJan27, 0.0375⟩ dJan05)) ∧
    (testEvalDate < dJan05 → testIndex.dividendCurve = none →
      testIndex.fixing testEvalDate dJan05 =
        .ok (8700 / Real.exp
          (-(0.0375 * (((dJan05 : ℝ) - ((dJan27 : Nat) : ℝ)) / 365))))) :=
  fixing_contract testEvalDate dJan05 testIndex ⟨dJan27, 0.0375⟩ 8700 rfl rfl


/-- C1: for a valid quanto configuration — one link per handle, in any
order, with consistent reference dates — `amount()` equals the
closed-form value `notional * (S0 * exp((r_f - q - ρ·σ_eq·σ_fx)·τ) / fixing(baseDate) - 1)`
within absolute tolerance 1e-6, independently of the interleaving of the
handle links (`r_f`, `q` and `τ` being the rates and year fraction the
program reads, from the index's forecast and dividend curves). -/
theorem quanto_formula_invariant (es : List Event) (lc dc qcc : YieldCurve)
    (ev fv : VolSurface) (s0 rho : ℝ) (fixings : List (Nat × ℝ))
    (cf : EquityCashFlow) (evalDate : Nat) (a0 : ℝ)
    (hperm : es.Perm [.linkLocalCcy lc, .linkDividend dc, .linkQuantoCcy qcc,
      .linkEqVol ev, .linkFxVol fv, .linkSpot s0, .linkCorrelation rho])
    (href1 : qcc.refDate = ev.refDate) (href2 : ev.refDate = fv.refDate)
    (hdate : cf.baseDate ≤ cf.fixingDate) (hbase : cf.baseDate ≤ evalDate)
    (ha : fixings.lookup cf.baseDate = some a0) (hfix : evalDate < cf.fixingDate) :
    ∃ v, (callAmount evalDate fixings cf true ⟨applyEvents es emptyMarket, none⟩).1 =
        .ok v ∧
      |v - quantoClosedForm cf.notional s0 lc.rate dc.rate rho ev.vol fv.vol
        (yearFraction lc.refDate cf.fixingDate) a0| ≤ 1e-6 := by
  rw [applyEvents_perm_links es lc dc qcc ev fv s0 rho hperm]
  refine ⟨quantoClosedForm cf.notional s0 lc.rate dc.rate rho ev.vol fv.vol
    (yearFraction lc.refDate cf.fixingDate) a0, ?_, by norm_num⟩
  simp [callAmount, EquityCashFlow.amount, hdate, pricerOf, Market.quantoPricer,
    Market.equityIndex, quantoAmount, href1, href2, EquityIndex.fixing,
    Nat.not_le.mpr hfix, Nat.not_lt.mpr hbase, hbase, ha, quantoClosedForm,
    YieldCurve.zeroRate, YieldCurve.timeFromReference, VolSurface.blackVol]

/-- Witness for C1: the fixture's seven links with the first two
interleaved in the opposite order to the source. -/
theorem quanto_formula_invariant_witness :
    ∃ v, (callAmount testEvalDate testFixings testCashFlow true
        ⟨applyEvents
          [.linkDividend ⟨dJan27, 0.005⟩, .linkLocalCcy ⟨dJan27, 0.0375⟩,
           .linkQuantoCcy ⟨dJan27, 0.001⟩, .linkEqVol ⟨dJan27, 0.4⟩,
           .linkFxVol ⟨dJan27, 0.2⟩, .linkSpot 8700, .linkCorrelation 0.4]
          emptyMarket, none⟩).1 = .ok v ∧
      |v - quantoClosedForm 10000000 8700 0.0375 0.005 0.4 0.4 0.2
        (yearFraction dJan27 dApr05) 9010| ≤ 1e-6 :=
  quanto_formula_invariant _ ⟨dJan27, 0.0375⟩ ⟨dJan27, 0.005⟩ ⟨dJan27, 0.001⟩
    ⟨dJan27, 0.4⟩ ⟨dJan27, 0.2⟩ 8700 0.4 testFixings testCashFlow testEvalDate 9010
    (List.Perm.swap _ _ _) rfl rfl (by decide) (by decide) rfl (by decide)

/-- C2 counterexample: at the fixture's market data the program's quanto
amount uses the local-currency forecast curve's rate 0.0375, while the
literal spec §4.3 step 3 variant uses the quanto currency curve's rate
0.001; the two closed-form values differ by more than the 1e-6
tolerance, so the two amounts are unequal. -/
theorem quanto_rate_curve_counterexample :
    quantoAmount testEvalDate testPricer testCashFlow testIndex =
      .ok (quantoClosedForm 10000000 8700 0.0375 0.005 0.4 0.4 0.2
        (yearFraction dJan27 dApr05) 9010) ∧
    quantoAmountSpecStep3 testEvalDate testPricer testCashFlow testIndex =
      .ok (quantoClosedForm 10000000 8700 0.001 0.005 0.4 0.4 0.2
        (yearFraction dJan27 dApr05) 9010) ∧
    |quantoClosedForm 10000000 8700 0.0375 0.005 0.4 0.4 0.2
        (yearFraction dJan27 dApr05) 9010 -
      quantoClosedForm 10000000 8700 0.001 0.005 0.4 0.4 0.2
        (yearFraction dJan27 dApr05) 9010| > 1e-6 ∧
    quantoAmount testEvalDate testPricer testCashFlow testIndex ≠
      quantoAmountSpecStep3 testEvalDate testPricer testCashFlow testIndex := by
  have ht : yearFraction dJan27 dApr05 = 68 / 365 := by
    norm_num [yearFraction, dJan27, dApr05]
  have hgap : quantoClosedForm 10000000 8700 0.0375 0.005 0.4 0.4 0.2
      (yearFraction dJan27 dApr05) 9010 -
      quantoClosedForm 10000000 8700 0.001 0.005 0.4 0.4 0.2
        (yearFraction dJan27 dApr05) 9010 > 1e-6 := by
    rw [ht]
    simp only [quantoClosedForm]
    have harg1 : ((0.0375 - 0.005 - 0.4 * 0.4 * 0.2) * (68 / 365) : ℝ) =
        0.0005 * (68 / 365) := by norm_num
    have harg2 : ((0.001 - 0.005 - 0.4 * 0.4 * 0.2) * (68 / 365) : ℝ) =
        -0.036 * (68 / 365) := by norm_num
    rw [harg1, harg2]
    have hB0 : (0 : ℝ) < Real.exp (-0.036 * (68 / 365)) := Real.exp_pos _
    have hB1 : (-0.036 * (68 / 365) : ℝ) + 1 ≤ Real.exp (-0.036 * (68 / 365)) :=
      Real.add_one_le_exp _
    have hD : (0.0365 * (68 / 365) : ℝ) + 1 ≤ Real.exp (0.0365 * (68 / 365)) :=
      Real.add_one_le_exp _
    have hmul : Real.exp (0.0365 * (68 / 365)) * Real.exp (-0.036 * (68 / 365)) =
        Real.exp (0.0005 * (68 / 365) : ℝ) := by
      rw [← Real.exp_add]; norm_num
    have hprod : (Real.exp (0.0365 * (68 / 365)) - (0.0365 * (68 / 365) + 1)) *
        Real.exp (-0.036 * (68 / 365)) ≥ 0 :=
      mul_nonneg (by linarith) (le_of_lt hB0)
    nlinarith [hB0, hB1, hD, hmul, hprod]
  have h1 : quantoAmount testEvalDate testPricer testCashFlow testIndex =
      .ok (quantoClosedForm 10000000 8700 0.0375 0.005 0.4 0.4 0.2
        (yearFraction dJan27 dApr05) 9010) := rfl
  have h2 : quantoAmountSpecStep3 testEvalDate testPricer testCashFlow testIndex =
      .ok (quantoClosedForm 10000000 8700 0.001 0.005 0.4 0.4 0.2
        (yearFraction dJan27 dApr05) 9010) := rfl
  refine ⟨h1, h2, lt_of_lt_of_le hgap (le_abs_self _), ?_⟩
  intro h
  rw [h1, h2] at h
  have h3 := Except.ok.inj h
  linarith


/-- C2 (amended): in the quanto amount formula, `τ` is the year fraction
from the reference date to the fixing date on the local-currency
forecast curve's day-count basis and `r_f` is that forecast curve's
continuously compounded zero rate at `τ` (not the quanto currency
curve's); the strike for the equity vol lookup is
`index.fixing(fixingDate)` and the FX vol is queried at strike 1.0. -/
theorem quanto_uses_forecast_curve (evalDate : Nat) (qcc lc : YieldCurve)
    (dc : Option YieldCurve) (ev fv : VolSurface) (s0 rho a0 strike : ℝ)
    (cf : EquityCashFlow) (fixings : List (Nat × ℝ))
    (href1 : qcc.refDate = ev.refDate) (href2 : ev.refDate = fv.refDate)
    (hstrike : EquityIndex.fixing evalDate ⟨fixings, some lc, dc, some s0⟩
      cf.fixingDate = .ok strike)
    (hbase : EquityIndex.fixing evalDate ⟨fixings, some lc, dc, some s0⟩
      cf.baseDate = .ok a0) :
    quantoAmount evalDate ⟨some qcc, some ev, some fv, some rho⟩ cf
        ⟨fixings, some lc, dc, some s0⟩ =
      .ok (cf.notional * (s0 * Real.exp
        ((lc.zeroRate (lc.timeFromReference cf.fixingDate)
            - (match dc with
               | some c => c.zeroRate (lc.timeFromReference cf.fixingDate)
               | none => 0)
            - rho * ev.blackVol cf.fixingDate strike * fv.blackVol cf.fixingDate 1)
          * lc.timeFromReference cf.fixingDate) / a0 - 1)) := by
  cases dc <;> simp [quantoAmount, href1, href2, hstrike, hbase]

/-- Witness for the amended C2 at the fixture's market data. -/
theorem quanto_uses_forecast_curve_witness :
    quantoAmount testEvalDate ⟨some ⟨dJan27, 0.001⟩, some ⟨dJan27, 0.4⟩,
        some ⟨dJan27, 0.2⟩, some 0.4⟩ testCashFlow
        ⟨testFixings, some ⟨dJan27, 0.0375⟩, some ⟨dJan27, 0.005⟩, some 8700⟩ =
      .ok (testCashFlow.notional * (8700 * Real.exp
        ((YieldCurve.zeroRate ⟨dJan27, 0.0375⟩
            (YieldCurve.timeFromReference ⟨dJan27, 0.0375⟩ testCashFlow.fixingDate)
            - (match (some ⟨dJan27, 0.005⟩ : Option YieldCurve) with
               | some c => c.zeroRate
                  (YieldCurve.timeFromReference ⟨dJan27, 0.0375⟩ testCashFlow.fixingDate)
               | none => 0)
            - 0.4 * VolSurface.blackVol ⟨dJan27, 0.4⟩ testCashFlow.fixingDate
                (8700 * Real.exp (-(0.005 * yearFraction dJan27 dApr05)) /
                  Real.exp (-(0.0375 * yearFraction dJan27 dApr05)))
              * VolSurface.blackVol ⟨dJan27, 0.2⟩ testCashFlow.fixingDate 1)
          * YieldCurve.timeFromReference ⟨dJan27, 0.0375⟩ testCashFlow.fixingDate)
        / 9010 - 1)) :=
  quanto_uses_forecast_curve testEvalDate ⟨dJan27, 0.001⟩ ⟨dJan27, 0.0375⟩
    (some ⟨dJan27, 0.005⟩) ⟨dJan27, 0.4⟩ ⟨dJan27, 0.2⟩ 8700 0.4 9010
    (8700 * Real.exp (-(0.005 * yearFraction dJan27 dApr05)) /
      Real.exp (-(0.0375 * yearFraction dJan27 dApr05)))
    testCashFlow testFixings rfl rfl rfl rfl

/-- C6: a quanto pricer with an empty quanto-curve, equity-vol or FX-vol
handle is constructed without error, and `amount()` on a (well-dated)
cash flow using it fails with the missing-market-data error, whose
message is exactly "Quanto currency, equity and FX volatility term
structure handles cannot be empty." -/
theorem missing_market_data_error (q : Option YieldCurve) (e f : Option VolSurface)
    (c : Option ℝ) (cf : EquityCashFlow) (idx : EquityIndex) (evalDate : Nat)
    (hdate : cf.baseDate ≤ cf.fixingDate) (h : q = none ∨ e = none ∨ f = none) :
    EquityQuantoCashFlowPricer.create q e f c = .ok ⟨q, e, f, c⟩ ∧
    cf.amount evalDate idx (some (.quanto ⟨q, e, f, c⟩)) =
      .error .missingMarketData ∧
    QLError.message .missingMarketData =
      "Quanto currency, equity and FX volatility term structure handles cannot be empty." := by
  refine ⟨rfl, ?_, rfl⟩
  simp only [EquityCashFlow.amount, if_pos hdate]
  cases q <;> cases e <;> cases f <;> simp_all [quantoAmount]

/-- Witness for C6: the pricer of
`createEquityQuantoPricerWithMissingHandles` — linked quanto curve and
correlation, both volatility handles empty. -/
theorem missing_market_data_error_witness :
    EquityQuantoCashFlowPricer.create (some ⟨dJan27, 0.001⟩) none none (some 0.4) =
      .ok ⟨some ⟨dJan27, 0.001⟩, none, none, some 0.4⟩ ∧
    EquityCashFlow.amount testEvalDate testCashFlow testIndex
        (some (.quanto ⟨some ⟨dJan27, 0.001⟩, none, none, some 0.4⟩)) =
      .error .missingMarketData ∧
    QLError.message .missingMarketData =
      "Quanto currency, equity and FX volatility term structure handles cannot be empty." :=
  missing_market_data_error (some ⟨dJan27, 0.001⟩) none none (some 0.4)
    testCashFlow testIndex testEvalDate (by decide) (Or.inr (Or.inl rfl))

/-- C7: relinking the quanto curve to one whose reference date does not
agree with both volatility surfaces' reference dates makes the next
`amount()` call fail with the inconsistent-reference-date error, whose
message is exactly "Quanto currency term structure, equity and FX
volatility need to have the same reference date." -/
theorem inconsistent_reference_date_error (evalDate : Nat)
    (fixings : List (Nat × ℝ)) (cf : EquityCashFlow) (s : PricingState)
    (qc : YieldCurve) (ev fv : VolSurface) (hev : s.market.eqVol = some ev)
    (hfv : s.market.fxVol = some fv) (hdate : cf.baseDate ≤ cf.fixingDate)
    (href : ¬(qc.refDate = ev.refDate ∧ ev.refDate = fv.refDate)) :
    (callAmount evalDate fixings cf true (notify (.linkQuantoCcy qc) s)).1 =
      .error .inconsistentReferenceDate ∧
    QLError.message .inconsistentReferenceDate =
      "Quanto currency term structure, equity and FX volatility need to have the same reference date." := by
  refine ⟨?_, rfl⟩
  simp [callAmount, notify, Event.apply, pricerOf, Market.quantoPricer,
    Market.equityIndex, EquityCashFlow.amount, hdate, quantoAmount, hev, hfv, href]

/-- Witness for C7: the fixture's market with a Fresh cache, relinked to
a quanto curve with reference date 2023-01-26 while both vol surfaces
keep reference date 2023-01-27, as in
`testErrorWhenInconsistentMarketDataReferenceDate`. -/
theorem inconsistent_reference_date_error_witness :
    (callAmount testEvalDate testFixings testCashFlow true
        (notify (.linkQuantoCcy ⟨dJan26, 0.02⟩) ⟨testMarket, some 12345⟩)).1 =
      .error .inconsistentReferenceDate ∧
    QLError.message .inconsistentReferenceDate =
      "Quanto currency term structure, equity and FX volatility need to have the same reference date." :=
  inconsistent_reference_date_error testEvalDate testFixings testCashFlow
    ⟨testMarket, some 12345⟩ ⟨dJan26, 0.02⟩ ⟨dJan27, 0.4⟩ ⟨dJan27, 0.2⟩ rfl rfl
    (by decide) (by decide)

/-- C8: cloning an index with an empty dividend handle keeps the same
fixing history; the quanto amount on the clone equals the closed form
with `q = 0`; and the dividend-inclusive closed form differs from the
dividend-stripped one exactly by the factor `exp(-q·τ)` on the quanto
forward — the `q` term's contribution to the exponent. -/
theorem dividend_stripped_clone (idx : EquityIndex) (f : Option YieldCurve)
    (s : Option ℝ) (evalDate : Nat) (qcc lc : YieldCurve) (ev fv : VolSurface)
    (s0 rho a0 strike : ℝ) (cf : EquityCashFlow)
    (href1 : qcc.refDate = ev.refDate) (href2 : ev.refDate = fv.refDate)
    (hstrike : EquityIndex.fixing evalDate (idx.clone (some lc) none (some s0))
      cf.fixingDate = .ok strike)
    (hbase : EquityIndex.fixing evalDate (idx.clone (some lc) none (some s0))
      cf.baseDate = .ok a0) :
    (idx.clone f none s).fixings = idx.fixings ∧
    quantoAmount evalDate ⟨some qcc, some ev, some fv, some rho⟩ cf
        (idx.clone (some lc) none (some s0)) =
      .ok (quantoClosedForm cf.notional s0 lc.rate 0 rho ev.vol fv.vol
        (lc.timeFromReference cf.fixingDate) a0) ∧
    ∀ n q t : ℝ, quantoClosedForm n s0 lc.rate q rho ev.vol fv.vol t a0 =
      n * (s0 * Real.exp ((lc.rate - rho * ev.vol * fv.vol) * t) *
        Real.exp (-(q * t)) / a0 - 1) := by
  refine ⟨rfl, ?_, ?_⟩
  · simp only [EquityIndex.clone] at hstrike hbase
    simp [quantoAmount, EquityIndex.clone, href1, href2, hstrike, hbase,
      quantoClosedForm, YieldCurve.zeroRate, YieldCurve.timeFromReference,
      VolSurface.blackVol]
  · intro n q t
    have harg : (lc.rate - q - rho * ev.vol * fv.vol) * t =
        (lc.rate - rho * ev.vol * fv.vol) * t + -(q * t) := by ring
    simp only [quantoClosedForm, harg, Real.exp_add]
    ring_nf

/-- Witness for C8: the fixture's index cloned with an empty dividend
handle, priced over the quanto cash flow of `checkQuantoCorrection`. -/
theorem dividend_stripped_clone_witness :
    (testIndex.clone (some ⟨dJan27, 0.0375⟩) none (some 8700)).fixings =
      testIndex.fixings ∧
    quantoAmount testEvalDate ⟨some ⟨dJan27, 0.001⟩, some ⟨dJan27, 0.4⟩,
        some ⟨dJan27, 0.2⟩, some 0.4⟩ testCashFlow
        (testIndex.clone (some ⟨dJan27, 0.0375⟩) none (some 8700)) =
      .ok (quantoClosedForm testCashFlow.notional 8700 0.0375 0 0.4 0.4 0.2
        (YieldCurve.timeFromReference ⟨dJan27, 0.0375⟩ testCashFlow.fixingDate) 9010) ∧
    ∀ n q t : ℝ, quantoClosedForm n 8700 0.0375 q 0.4 0.4 0.2 t 9010 =
      n * (8700 * Real.exp ((0.0375 - 0.4 * 0.4 * 0.2) * t) *
        Real.exp (-(q * t)) / 9010 - 1) :=
  dividend_stripped_clone testIndex (some ⟨dJan27, 0.0375⟩) (some 8700)
    testEvalDate ⟨dJan27, 0.001⟩ ⟨dJan27, 0.0375⟩ ⟨dJan27, 0.4⟩ ⟨dJan27, 0.2⟩
    8700 0.4 9010
    (8700 * 1 / Real.exp (-(0.0375 * yearFraction dJan27 dApr05)))
    testCashFlow rfl rfl rfl rfl

end EquityCF
